import Mathlib

/-!
Shallow embedding of the `future-local-storage` Rust crate.

The crate keeps, for each static storage key, a per-thread cell holding an
`Option<T>` (`src/imp.rs`, `LocalKey<T> = RefCell<Option<T>>`).  All the
operations the claims are about act on the content of that cell on one
thread, so the embedding threads an explicit `Slot T := Option T` value
through every operation.  Panics (`expect` / `unwrap` in the source) are
embedded as `Except` / `Option` results, so every definition is total and
executable.

Futures are embedded as step functions: an inner future with internal state
`S` and output `A` is a function `S → Slot T → Poll A × S × Slot T` — one
resume step that may read and write the thread-local slot.  The scoping
wrapper from `src/future.rs` (`InstrumentedFuture`) carries the pair
`(inner state, stored_value)` and brackets every poll with the two
`mem::swap` calls of the source.
-/

namespace FLS

/-- Content of the per-thread cell of one storage key: `Option<T>` behind the
`RefCell` of `src/imp.rs`. -/
abbrev Slot (T : Type) : Type := Option T

/-- Result of one resume step of a future, `std::task::Poll`. -/
inductive Poll (A : Type) where
  | ready (a : A)
  | pending
deriving DecidableEq, Repr

/-- Panic conditions of the once-storage accessors: `expect("cannot access a
future local value without setting it first")` in `FutureOnceCell::with` /
`FutureOnceLock::with`, and the `unwrap` calls on empty options. -/
inductive AccessError where
  | missingValue
deriving DecidableEq, Repr

/-- `FutureLocalKey::swap` from `src/imp.rs`: `mem::swap` between the
thread-local cell and a caller supplied external slot.  Input is
`(cell content, external slot)`, output is the pair after the exchange:
`(new cell content, new external slot)`. -/
def FutureLocalKey.swap {T : Type} (slot other : Slot T) : Slot T × Slot T :=
  (other, slot)

/-- `FutureOnceLock::with` from `src/once_lock.rs` (identical body to
`FutureOnceCell::with` in `src/lib.rs`): borrows the slot, applies `f` to the
contained value, and panics (`missingValue`) when the slot is empty.  The
second component is the slot after the call (the borrow is read-only). -/
def FutureOnceLock.withVal {T R : Type} (slot : Slot T) (f : T → R) :
    Except AccessError R × Slot T :=
  match slot with
  | some v => (Except.ok (f v), some v)
  | none => (Except.error AccessError.missingValue, none)

/-- `FutureOnceLock::take` from `src/once_lock.rs`: `borrow_mut().take()`. -/
def FutureOnceLock.take {T : Type} (slot : Slot T) : Option T × Slot T :=
  (slot, none)

/-- `FutureOnceLock::get` from `src/once_lock.rs`: returns a copy of the
`Option<T>` content, leaving the slot unchanged. -/
def FutureOnceLock.get {T : Type} (slot : Slot T) : Option T × Slot T :=
  (slot, slot)

/-- `FutureOnceLock::replace` (test impl in `src/once_lock.rs`):
`borrow_mut().replace(value)` — installs `value`, returns the previous
content. -/
def FutureOnceLock.replace {T : Type} (slot : Slot T) (v : T) :
    Option T × Slot T :=
  (slot, some v)

/-- Lazy storage key from `src/lazy_lock.rs`: a `FutureLocalKey` plus the
`init: fn() -> T` initializer. -/
structure FutureLazyLock (T : Type) where
  init : Unit → T

/-- `FutureLazyLock::inited_local_key` from `src/lazy_lock.rs`: if the slot is
empty, runs the initializer and swaps the produced value in.  The `Nat`
component counts how many times the initializer was invoked by this call
(0 or 1). -/
def FutureLazyLock.inited_local_key {T : Type} (L : FutureLazyLock T)
    (slot : Slot T) : Slot T × Nat :=
  if slot.isSome then (slot, 0) else (some (L.init ()), 1)

/-- `FutureLazyLock::with` from `src/lazy_lock.rs`: materializes the slot via
`inited_local_key`, then applies `f` to the unwrapped value.  The `unwrap` is
embedded as `Option.map`: a `none` first component is the panic case.  Also
returns the slot after the call and the initializer invocation count. -/
def FutureLazyLock.withVal {T R : Type} (L : FutureLazyLock T)
    (slot : Slot T) (f : T → R) : Option R × Slot T × Nat :=
  let k := L.inited_local_key slot
  (k.1.map f, k.1, k.2)

/-- `FutureLazyLock::replace` from `src/lazy_lock.rs`:
`inited_local_key().borrow_mut().replace(value).unwrap()`.  The first
component is the result of `Option::replace` before the final `unwrap` (the
previous content of the materialized slot); the panic of the `unwrap` is the
`none` case of that component. -/
def FutureLazyLock.replace {T : Type} (L : FutureLazyLock T)
    (slot : Slot T) (v : T) : Option T × Slot T × Nat :=
  let k := L.inited_local_key slot
  (k.1, some v, k.2)

/-- `FutureLazyLock::set` from `src/lazy_lock.rs`:
`inited_local_key().borrow_mut().replace(value);` — note that the source
calls `inited_local_key` first, so the initializer may run.  Returns the slot
after the call and the initializer invocation count. -/
def FutureLazyLock.set {T : Type} (L : FutureLazyLock T)
    (slot : Slot T) (v : T) : Slot T × Nat :=
  let k := L.inited_local_key slot
  (some v, k.2)

/-- `FutureLazyLock::get` from `src/lazy_lock.rs`: `self.with(|x| *x)`. -/
def FutureLazyLock.get {T : Type} (L : FutureLazyLock T) (slot : Slot T) :
    Option T × Slot T × Nat :=
  L.withVal slot (fun x => x)

/-- `InstrumentedFuture::poll` from `src/future.rs`.  The wrapper state is
`(inner state, stored_value)`.  The body is the source's three steps: swap
the stored value into the thread-local slot, poll the inner future, swap the
slot content back into `stored_value`, and return the inner result
unchanged. -/
def InstrumentedFuture.poll {T S A : Type}
    (innerPoll : S → Slot T → Poll A × S × Slot T)
    (st : S × Slot T) (slot : Slot T) : Poll A × (S × Slot T) × Slot T :=
  let swapIn := FutureLocalKey.swap slot st.2
  let r := innerPoll st.1 swapIn.1
  let swapOut := FutureLocalKey.swap r.2.2 swapIn.2
  (r.1, (r.2.1, swapOut.2), swapOut.1)

/-- `FutureLocalStorage::with_scope` / `FutureOnceCell::scope`: the initial
wrapper state binds `value` as the wrapper's held value
(`stored_value = Some(value)`, inner future not yet polled). -/
def with_scope {T S : Type} (s0 : S) (value : T) : S × Slot T :=
  (s0, some value)

/-- `FutureLocalStorage::attach` from `src/future.rs`: initial wrapper state
with `stored_value: None` (lazy storage materializes on first access). -/
def attach {T S : Type} (s0 : S) : S × Slot T :=
  (s0, none)

/-- Modelled from the spec: `ScopedFutureWithValue` is declared and used by
`src/lib.rs` (`FutureOnceCell::scope`, `FutureLocalStorage::with_scope`) but
its definition is not under `src/`.  Per spec §4.4, its resume step performs
the same swap bracketing as `InstrumentedFuture::poll`; when the inner
computation finishes, the wrapper extracts its held value (just swapped back
from the slot, so the wrapper field becomes empty) and yields the pair
`(value, innerOutput)`. -/
def ScopedFutureWithValue.poll {T S A : Type}
    (innerPoll : S → Slot T → Poll A × S × Slot T)
    (st : S × Slot T) (slot : Slot T) :
    Poll (Option T × A) × (S × Slot T) × Slot T :=
  match InstrumentedFuture.poll innerPoll st slot with
  | (Poll.ready a, st1, slot1) => (Poll.ready (st1.2, a), (st1.1, none), slot1)
  | (Poll.pending, st1, slot1) => (Poll.pending, st1, slot1)

/-- Modelled from the spec: the `discard_value` variant of
`ScopedFutureWithValue` (used by `src/lib.rs` tests, definition not under
`src/`).  Per spec §4.4, it drops the held value on completion and yields
only the inner output. -/
def ScopedFutureWithValue.pollDiscardValue {T S A : Type}
    (innerPoll : S → Slot T → Poll A × S × Slot T)
    (st : S × Slot T) (slot : Slot T) : Poll A × (S × Slot T) × Slot T :=
  match ScopedFutureWithValue.poll innerPoll st slot with
  | (Poll.ready p, st1, slot1) => (Poll.ready p.2, st1, slot1)
  | (Poll.pending, st1, slot1) => (Poll.pending, st1, slot1)

/-- Drives one wrapped future to completion: repeatedly polls until `ready`,
threading the thread-local slot; `none` when the fuel runs out. -/
def runToReady {T S A : Type}
    (pollFn : S → Slot T → Poll A × S × Slot T) :
    Nat → S → Slot T → Option (A × S × Slot T)
  | 0, _, _ => none
  | Nat.succ fuel, s, slot =>
    match pollFn s slot with
    | (Poll.ready a, s1, slot1) => some (a, s1, slot1)
    | (Poll.pending, s1, slot1) => runToReady pollFn fuel s1 slot1

/-- Inner future of the first scope instance in the once-storage scenario
(test `test_future_once_lock` in `src/once_lock.rs`, spec §8): state is the
loop counter; each of the 42 iterations reads the current value
(`VALUE.with(Clone::clone)`), replaces it with the successor
(`VALUE.replace(j + 1)`) and suspends (`yield_now`); after the loop it
returns `VALUE.get().unwrap()`. -/
def onceInner1 (i : Nat) (slot : Slot Int) :
    Poll (Except AccessError Int) × Nat × Slot Int :=
  if i < 42 then
    match (FutureOnceLock.withVal slot (fun x => x)).1 with
    | Except.ok j => (Poll.pending, i + 1, (FutureOnceLock.replace slot (j + 1)).2)
    | Except.error e => (Poll.ready (Except.error e), i, slot)
  else
    match (FutureOnceLock.get slot).1 with
    | some v => (Poll.ready (Except.ok v), i, (FutureOnceLock.get slot).2)
    | none => (Poll.ready (Except.error AccessError.missingValue), i, slot)

/-- Inner future of the second scope instance in the once-storage scenario:
makes no increments, just returns `VALUE.get().unwrap()` on its single
resume. -/
def onceInner2 (u : Unit) (slot : Slot Int) :
    Poll (Except AccessError Int) × Unit × Slot Int :=
  match (FutureOnceLock.get slot).1 with
  | some v => (Poll.ready (Except.ok v), u, slot)
  | none => (Poll.ready (Except.error AccessError.missingValue), u, slot)

/-- The interleaved once-storage scenario of spec §8 on a single thread: the
first instance is bound to `0` and polled once (it suspends after its first
read-increment), then the second instance, bound to `15`, is polled to
completion in between, and finally the first instance is driven to
completion.  Both wrapped futures share the one thread-local slot, which
starts empty. -/
def onceScenario :
    Option (Except AccessError Int × (Nat × Slot Int) × Slot Int) ×
      (Poll (Except AccessError Int) × (Unit × Slot Int) × Slot Int) :=
  let r1 := InstrumentedFuture.poll onceInner1 (with_scope 0 (0 : Int)) none
  let r2 := InstrumentedFuture.poll onceInner2 (with_scope () (15 : Int)) r1.2.2
  (runToReady (InstrumentedFuture.poll onceInner1) 64 r1.2.1 r2.2.2, r2)

/-- The lazy storage key of the lazy scenario and of `FutureLazyLock::set`:
initializer `|| -1` (test `test_future_lazy` in `src/lazy_lock.rs`). -/
def exLazy : FutureLazyLock Int :=
  ⟨fun _ => (-1 : Int)⟩

/-- Inner future of the lazy-storage scenario (test `test_future_lazy` in
`src/lazy_lock.rs`, spec §8): 42 iterations, each reading the current value
(`VALUE.with(|x| *x)`), replacing it with the successor and suspending; after
the loop it returns `VALUE.get()`. -/
def lazyInner1 (i : Nat) (slot : Slot Int) :
    Poll (Except AccessError Int) × Nat × Slot Int :=
  if i < 42 then
    match exLazy.withVal slot (fun x => x) with
    | (some j, slot1, _) => (Poll.pending, i + 1, (exLazy.replace slot1 (j + 1)).2.1)
    | (none, slot1, _) => (Poll.ready (Except.error AccessError.missingValue), i, slot1)
  else
    match exLazy.get slot with
    | (some v, slot1, _) => (Poll.ready (Except.ok v), i, slot1)
    | (none, slot1, _) => (Poll.ready (Except.error AccessError.missingValue), i, slot1)

/-- The lazy-storage scenario of spec §8: the inner future is attached
(`.attach(&VALUE)`, so the wrapper starts with no stored value) and driven to
completion on a thread whose slot starts empty. -/
def lazyScenario :
    Option (Except AccessError Int × (Nat × Slot Int) × Slot Int) :=
  runToReady (InstrumentedFuture.poll lazyInner1) 64 (attach 0) none

/-- One accessor call on a lazy storage key, for stating the at-most-once
property of the initializer over arbitrary call sequences. -/
inductive LazyOp (T : Type) where
  | withV
  | replaceV (v : T)
  | getV
  | setV (v : T)

/-- Slot transition and initializer invocation count of one lazy accessor
call. -/
def FutureLazyLock.runOp {T : Type} (L : FutureLazyLock T) (slot : Slot T) :
    LazyOp T → Slot T × Nat
  | LazyOp.withV => ((L.withVal slot (fun x => x)).2.1, (L.withVal slot (fun x => x)).2.2)
  | LazyOp.replaceV v => ((L.replace slot v).2.1, (L.replace slot v).2.2)
  | LazyOp.getV => ((L.get slot).2.1, (L.get slot).2.2)
  | LazyOp.setV v => L.set slot v

/-- Slot transition and total initializer invocation count of a sequence of
lazy accessor calls. -/
def FutureLazyLock.runOps {T : Type} (L : FutureLazyLock T) (slot : Slot T) :
    List (LazyOp T) → Slot T × Nat
  | [] => (slot, 0)
  | op :: ops =>
    let r := L.runOp slot op
    let rest := L.runOps r.1 ops
    (rest.1, r.2 + rest.2)

/-- One lazy accessor call starting from a populated slot never invokes the
initializer and leaves the slot populated. -/
theorem FutureLazyLock.runOp_some {T : Type} (L : FutureLazyLock T)
    (op : LazyOp T) (v : T) :
    (L.runOp (some v) op).2 = 0 ∧ (L.runOp (some v) op).1.isSome = true := by
  cases op <;>
    simp [FutureLazyLock.runOp, FutureLazyLock.withVal, FutureLazyLock.replace,
      FutureLazyLock.get, FutureLazyLock.set, FutureLazyLock.inited_local_key]

/-- A sequence of lazy accessor calls starting from a populated slot never
invokes the initializer. -/
theorem FutureLazyLock.runOps_some {T : Type} (L : FutureLazyLock T)
    (ops : List (LazyOp T)) :
    ∀ v : T, (L.runOps (some v) ops).2 = 0 := by
  induction ops with
  | nil =>
    intro v
    simp [FutureLazyLock.runOps]
  | cons op ops ih =>
    intro v
    have h := L.runOp_some op v
    obtain ⟨w, hw⟩ := Option.isSome_iff_exists.mp h.2
    simp [FutureLazyLock.runOps, h.1, hw, ih w]

/-- One lazy accessor call starting from an empty slot invokes the
initializer exactly once and leaves the slot populated. -/
theorem FutureLazyLock.runOp_none {T : Type} (L : FutureLazyLock T)
    (op : LazyOp T) :
    (L.runOp (none : Slot T) op).2 = 1 ∧
      (L.runOp (none : Slot T) op).1.isSome = true := by
  cases op <;>
    simp [FutureLazyLock.runOp, FutureLazyLock.withVal, FutureLazyLock.replace,
      FutureLazyLock.get, FutureLazyLock.set, FutureLazyLock.inited_local_key]

/-- C1: interleaving two scope instances of the same once-storage key on one
thread isolates their values: the instance bound to `0` that performs 42
read-increment-suspend iterations completes with stored value `42` and
output `42`, while the instance bound to `15` that is polled in between
observes `15`, completes with stored value `15`, and the thread-local slot is
left empty. -/
theorem once_isolation_scenario :
    onceScenario =
      (some (Except.ok 42, (42, some 42), none),
        (Poll.ready (Except.ok 15), ((), some 15), none)) := by
  rfl

/-- C2: every `InstrumentedFuture::poll` call leaves the thread-local slot
with exactly the content it had before the call, for every inner future,
wrapper state and slot content; consequently the slot is empty again after a
scope completes, and a fresh access on a lazy key with an empty slot invokes
the initializer again. -/
theorem poll_restores_slot :
    (∀ (T S A : Type) (ip : S → Slot T → Poll A × S × Slot T)
        (st : S × Slot T) (slot : Slot T),
        (InstrumentedFuture.poll ip st slot).2.2 = slot) ∧
      ∀ (T : Type) (L : FutureLazyLock T) (f : T → T),
        (L.withVal (none : Slot T) f).2.2 = 1 := by
  constructor
  · intro T S A ip st slot
    rfl
  · intro T L f
    rfl

/-- C3: when the inner computation's resume step finishes with output `out`
while the slot holds `v`, the scoping wrapper yields the pair `(v, out)` (the
held value just swapped back from the slot), and the discard variant yields
only `out`. -/
theorem scoped_yields_pair {T S A : Type}
    (ip : S → Slot T → Poll A × S × Slot T) (st : S × Slot T) (slot : Slot T)
    (out : A) (s1 : S) (v : T)
    (h : ip st.1 st.2 = (Poll.ready out, s1, some v)) :
    ScopedFutureWithValue.poll ip st slot =
        (Poll.ready (some v, out), (s1, none), slot) ∧
      ScopedFutureWithValue.pollDiscardValue ip st slot =
        (Poll.ready out, (s1, none), slot) := by
  have hinstr : InstrumentedFuture.poll ip st slot =
      (Poll.ready out, (s1, some v), slot) := by
    simp [InstrumentedFuture.poll, FutureLocalKey.swap, h]
  constructor
  · simp [ScopedFutureWithValue.poll, hinstr]
  · simp [ScopedFutureWithValue.pollDiscardValue, ScopedFutureWithValue.poll, hinstr]

/-- Witness for C3 at a concrete inner future that completes immediately with
output `7` while the slot holds `5`. -/
theorem scoped_yields_pair_witness :
    ScopedFutureWithValue.poll
          (fun (_ : Unit) (sl : Slot Nat) => (Poll.ready 7, (), sl))
          ((), some 5) none =
        (Poll.ready (some 5, 7), ((), none), none) ∧
      ScopedFutureWithValue.pollDiscardValue
          (fun (_ : Unit) (sl : Slot Nat) => (Poll.ready 7, (), sl))
          ((), some 5) none =
        (Poll.ready 7, ((), none), none) :=
  scoped_yields_pair (fun _ sl => (Poll.ready 7, (), sl)) ((), some 5) none 7 () 5 rfl

/-- C4: evaluating `FutureLazyLock::set` at the failing input shows the code
bug: on an empty slot, `set 5` runs the lazy initializer once (count `1`)
before overwriting its result, contradicting the claim (and the method's own
documentation) that `set` never invokes the initializer; on a populated slot
the initializer is not run. -/
theorem set_runs_init_on_empty_slot :
    exLazy.set (none : Slot Int) 5 = (some 5, 1) ∧
      exLazy.set (some 3) 5 = (some 5, 0) := by
  constructor <;> rfl

/-- C5: the once-storage accessor `with` fails with `missingValue` exactly
when the slot is empty; on a populated slot it applies `f` to the value and
returns its result, leaving the slot unchanged in both cases. -/
theorem once_with_missing_value :
    ∀ (T R : Type) (f : T → R),
      FutureOnceLock.withVal (none : Slot T) f =
          (Except.error AccessError.missingValue, none) ∧
        ∀ v : T, FutureOnceLock.withVal (some v) f = (Except.ok (f v), some v) := by
  intro T R f
  exact ⟨rfl, fun v => rfl⟩

/-- C6: over any sequence of lazy accessor calls (`with`, `replace`, `get`,
`set`) within one scope instance, the initializer runs at most once when the
slot starts empty, and never when the slot already holds a value. -/
theorem lazy_init_at_most_once :
    ∀ (T : Type) (L : FutureLazyLock T) (ops : List (LazyOp T)),
      (L.runOps (none : Slot T) ops).2 ≤ 1 ∧
        ∀ v : T, (L.runOps (some v) ops).2 = 0 := by
  intro T L ops
  refine ⟨?_, fun v => L.runOps_some ops v⟩
  cases ops with
  | nil => simp [FutureLazyLock.runOps]
  | cons op ops =>
    have h := L.runOp_none op
    obtain ⟨w, hw⟩ := Option.isSome_iff_exists.mp h.2
    simp [FutureLazyLock.runOps, h.1, hw, L.runOps_some ops w]

/-- C7: the lazy-storage scenario with initializer `|| -1` and 42
read-increment-suspend cycles completes with output `41` and final stored
value `41` (the first read consumes the initializer's `-1`), and leaves the
thread-local slot empty. -/
theorem lazy_scenario_result :
    lazyScenario = some (Except.ok 41, (42, some 41), none) := by
  rfl

/-- C8: `FutureLocalKey::swap` exchanges the thread-local cell content with
the external slot for every combination of populated and empty sides, and a
second swap with the same external slot restores both to their original
contents; the operation is total, so it cannot fail. -/
theorem swap_exchange_roundtrip :
    ∀ (T : Type) (slot other : Slot T),
      FutureLocalKey.swap slot other = (other, slot) ∧
        FutureLocalKey.swap (FutureLocalKey.swap slot other).1
            (FutureLocalKey.swap slot other).2 = (slot, other) := by
  intro T slot other
  exact ⟨rfl, rfl⟩

/-- C9: `FutureLazyLock::replace` is total: the value returned by the inner
`Option::replace` (unwrapped by the source) is always present, the new slot
content is always `some v`, the previous value is the initializer's output
when the slot was empty, and the previously stored value otherwise. -/
theorem lazy_replace_total :
    ∀ (T : Type) (L : FutureLazyLock T) (v : T),
      (∀ slot : Slot T,
          ((L.replace slot v).1).isSome = true ∧ (L.replace slot v).2.1 = some v) ∧
        (L.replace (none : Slot T) v).1 = some (L.init ()) ∧
        ∀ u : T, (L.replace (some u) v).1 = some u := by
  intro T L v
  refine ⟨fun slot => ⟨?_, rfl⟩, rfl, fun u => rfl⟩
  cases slot <;> simp [FutureLazyLock.replace, FutureLazyLock.inited_local_key]

/-- C10: `InstrumentedFuture::poll` is transparent in the inner result: for
every poll call it returns exactly what the inner future's poll returned for
that same call (the inner future is polled with the wrapper's stored value
swapped in). -/
theorem poll_transparent :
    ∀ (T S A : Type) (ip : S → Slot T → Poll A × S × Slot T)
      (st : S × Slot T) (slot : Slot T),
      (InstrumentedFuture.poll ip st slot).1 = (ip st.1 st.2).1 := by
  intro T S A ip st slot
  rfl

end FLS
